import Mathlib

/-!
Verification development for the HFC_WLC wind-load calculation engine.

The definitions below are a shallow embedding of the Python modules
`windcalc/asce7.py`, `windcalc/post_catalog.py`, `windcalc/footing.py`,
`windcalc/engine.py`, `windcalc/risk.py` and `windcalc/quantities.py`.
Numeric conventions of the embedding:

* Python floats are modelled as exact rationals (`ℚ`); `math.pi` is the
  IEEE-754 binary64 value of `math.pi`, which is itself a rational number
  and is embedded exactly as `mathPi`.
* The only places where genuinely irrational real arithmetic occurs in the
  source are the exponentiation `(z / zg) ** (2 / alpha)` in `compute_kz`
  and the `math.sqrt` call in `compute_footing_check`; those two functions
  are embedded over `ℝ`.
* Python's `round(x, n)` (round half to even on the decimal value) is
  modelled exactly by `pyRound` / `roundTo`.
* Warning and assumption strings carry no computational content; they are
  modelled as tags (one tag per distinct message site in the source).
-/

namespace WindCalc

/-- Status tiers, exactly the three values used by the engine. -/
inductive Status
  | GREEN
  | YELLOW
  | RED
deriving DecidableEq, Fintype

/-- Structural role of a post in `_compute_block`. -/
inductive Role
  | line
  | terminal
deriving DecidableEq, Fintype

/-- The three supported exposure categories (`_EXPOSURE_CONSTANTS` keys). -/
inductive Exposure
  | B
  | C
  | D
deriving DecidableEq, Fintype

/-- `PostGroup` literal type from `post_catalog.py`. -/
inductive PostGroup
  | IA_REG
  | IA_HIGH
  | IC_PIPE
  | II_CSHAPE
deriving DecidableEq, Fintype

/-- Python's built-in `round` to an integer: round half to even. -/
def pyRound {α : Type} [LinearOrderedField α] [FloorRing α] (x : α) : ℤ :=
  let f := ⌊x⌋
  let r := x - (f : α)
  if r < 1 / 2 then f
  else if 1 / 2 < r then f + 1
  else if f % 2 = 0 then f else f + 1

/-- Python's `round(x, nd)`: round half to even at `nd` decimal digits. -/
def roundTo {α : Type} [LinearOrderedField α] [FloorRing α] (nd : ℕ) (x : α) : α :=
  (pyRound (x * (10 : α) ^ nd) : α) / (10 : α) ^ nd

/-- The exact rational value of the IEEE-754 binary64 constant `math.pi`
used by the Python source (884279719003555 / 2^48). -/
def mathPi : ℚ := 884279719003555 / 281474976710656

/-- First-match linear interpolation over consecutive points of a table,
as done by the interpolation loops in `compute_cf_solid` and `get_cf1`:
scan adjacent pairs, return the linear interpolation on the first interval
containing `x`, falling back to the last point's value. -/
def interpSegments : (ℚ × ℚ) → List (ℚ × ℚ) → ℚ → ℚ
  | (_, cl), [], _ => cl
  | (xl, cl), (xh, ch) :: rest, x =>
    if xl ≤ x ∧ x ≤ xh then cl + (x - xl) / (xh - xl) * (ch - cl)
    else interpSegments (xh, ch) rest x

/-! ### asce7.py (rational part: force coefficients) -/

/-- `_CF_SOLID_TABLE`: (B/s ratio, Cf) points of ASCE 7-22 Fig. 29.3-1. -/
def cfSolidTable : List (ℚ × ℚ) := [(2, 1.2), (5, 1.3), (10, 1.4), (20, 1.5), (45, 1.75)]

/-- `CF_SOLID_LONG_FENCE`: default for long runs (aspect ratio unknown). -/
def CF_SOLID_LONG_FENCE : ℚ := 1.5

/-- `compute_cf_solid`: solid-wall force coefficient, clamped below the
lowest and above the highest table ratio, linearly interpolated between
adjacent points, long-run default when the aspect ratio is absent. -/
def computeCfSolid (aspectRatioBs : Option ℚ) : ℚ :=
  match aspectRatioBs with
  | none => CF_SOLID_LONG_FENCE
  | some r =>
    match cfSolidTable with
    | [] => 0
    | first :: rest =>
      let lastP := rest.getLastD first
      if r ≤ first.1 then first.2
      else if lastP.1 ≤ r then lastP.2
      else interpSegments first rest r

/-- `compute_cf`: net force coefficient, solid-wall value scaled by the
solidity ratio (`cf_solid * max(solidity, 0.0)`). -/
def computeCf (solidity : ℚ) (aspectRatioBs : Option ℚ) : ℚ :=
  computeCfSolid aspectRatioBs * max solidity 0

/-! ### post_catalog.py -/

/-- `PostType` dataclass from `post_catalog.py` (defaults as in source). -/
structure PostTypeM where
  key : String
  label : String
  group : PostGroup
  od_in : Option ℚ := none
  wall_in : Option ℚ := none
  height_base_ft : ℚ := 0
  spacing_base_ft : ℚ := 0
  fy_ksi : ℚ := 50
  section_modulus_in3 : Option ℚ := none
  table_label : Option String := none
  footing_diameter_in : Option ℚ := none
  footing_embedment_in : Option ℚ := none
deriving DecidableEq

/-- The `POST_TYPES` catalog, embedded as an association list in the
source's insertion order. -/
def postTypes : List (String × PostTypeM) := [
  ("1_5_8_SS20",
   { key := "1_5_8_SS20", label := "1-5/8\" SS20", group := .IA_REG,
     od_in := some 1.660, wall_in := some 0.065, height_base_ft := 6, spacing_base_ft := 8,
     fy_ksi := 30, table_label := none,
     footing_diameter_in := some 8, footing_embedment_in := some 24 }),
  ("1_7_8_SS20",
   { key := "1_7_8_SS20", label := "1-7/8\" SS20", group := .IA_REG,
     od_in := some 1.900, wall_in := some 0.065, height_base_ft := 6, spacing_base_ft := 8,
     fy_ksi := 30, table_label := none,
     footing_diameter_in := some 8, footing_embedment_in := some 24 }),
  ("2_3_8_SS20",
   { key := "2_3_8_SS20", label := "2-3/8\" SS20", group := .IA_REG,
     od_in := some 2.375, wall_in := some 0.065, height_base_ft := 6, spacing_base_ft := 8,
     fy_ksi := 30, table_label := none,
     footing_diameter_in := some 10, footing_embedment_in := some 24 }),
  ("2_7_8_SS20",
   { key := "2_7_8_SS20", label := "2-7/8\" SS20", group := .IA_REG,
     od_in := some 2.875, wall_in := some 0.065, height_base_ft := 6, spacing_base_ft := 10,
     fy_ksi := 30, table_label := none,
     footing_diameter_in := some 10, footing_embedment_in := some 30 }),
  ("3_1_2_SS20",
   { key := "3_1_2_SS20", label := "3-1/2\" SS20", group := .IA_REG,
     od_in := some 3.500, wall_in := some 0.065, height_base_ft := 8, spacing_base_ft := 10,
     fy_ksi := 30, table_label := none,
     footing_diameter_in := some 12, footing_embedment_in := some 30 }),
  ("4_0_SS20",
   { key := "4_0_SS20", label := "4\" SS20", group := .IA_REG,
     od_in := some 4.000, wall_in := some 0.075, height_base_ft := 8, spacing_base_ft := 10,
     fy_ksi := 30, table_label := none,
     footing_diameter_in := some 14, footing_embedment_in := some 36 }),
  ("1_7_8_PIPE",
   { key := "1_7_8_PIPE", label := "1-7/8\" SS40", group := .IC_PIPE,
     od_in := some 1.900, wall_in := some 0.120, height_base_ft := 6, spacing_base_ft := 8,
     fy_ksi := 50, table_label := some "1 7/8\"",
     footing_diameter_in := some 10, footing_embedment_in := some 24 }),
  ("2_3_8_SS40",
   { key := "2_3_8_SS40", label := "2-3/8\" SS40", group := .IC_PIPE,
     od_in := some 2.375, wall_in := some 0.130, height_base_ft := 6, spacing_base_ft := 8,
     fy_ksi := 50, table_label := some "2 3/8\"",
     footing_diameter_in := some 10, footing_embedment_in := some 24 }),
  ("2_7_8_SS40",
   { key := "2_7_8_SS40", label := "2-7/8\" SS40", group := .IC_PIPE,
     od_in := some 2.875, wall_in := some 0.160, height_base_ft := 6, spacing_base_ft := 10,
     fy_ksi := 50, table_label := some "2 7/8\"",
     footing_diameter_in := some 12, footing_embedment_in := some 30 }),
  ("3_1_2_SS40",
   { key := "3_1_2_SS40", label := "3-1/2\" SS40", group := .IC_PIPE,
     od_in := some 3.500, wall_in := some 0.160, height_base_ft := 8, spacing_base_ft := 10,
     fy_ksi := 50, table_label := some "3 1/2\"",
     footing_diameter_in := some 16, footing_embedment_in := some 36 }),
  ("4_0_PIPE",
   { key := "4_0_PIPE", label := "4\" SS40", group := .IC_PIPE,
     od_in := some 4.000, wall_in := some 0.160, height_base_ft := 8, spacing_base_ft := 10,
     fy_ksi := 50, table_label := some "4\"",
     footing_diameter_in := some 18, footing_embedment_in := some 42 }),
  ("6_5_8_PIPE",
   { key := "6_5_8_PIPE", label := "6-5/8\" SS40", group := .IC_PIPE,
     od_in := some 6.625, wall_in := some 0.280, height_base_ft := 8, spacing_base_ft := 10,
     fy_ksi := 50, table_label := some "6 5/8\"",
     footing_diameter_in := some 24, footing_embedment_in := some 48 }),
  ("8_5_8_PIPE",
   { key := "8_5_8_PIPE", label := "8-5/8\" SS40", group := .IC_PIPE,
     od_in := some 8.625, wall_in := some 0.322, height_base_ft := 8, spacing_base_ft := 10,
     fy_ksi := 50, table_label := some "8 5/8\"",
     footing_diameter_in := some 30, footing_embedment_in := some 54 }),
  ("2_3_8_S80",
   { key := "2_3_8_S80", label := "2-3/8\" Sch80", group := .IC_PIPE,
     od_in := some 2.375, wall_in := some 0.218, height_base_ft := 6, spacing_base_ft := 8,
     fy_ksi := 50, table_label := none,
     footing_diameter_in := some 10, footing_embedment_in := some 24 }),
  ("2_7_8_S80",
   { key := "2_7_8_S80", label := "2-7/8\" Sch80", group := .IC_PIPE,
     od_in := some 2.875, wall_in := some 0.276, height_base_ft := 6, spacing_base_ft := 10,
     fy_ksi := 50, table_label := none,
     footing_diameter_in := some 12, footing_embedment_in := some 30 }),
  ("3_1_2_S80",
   { key := "3_1_2_S80", label := "3-1/2\" Sch80", group := .IC_PIPE,
     od_in := some 3.500, wall_in := some 0.300, height_base_ft := 8, spacing_base_ft := 10,
     fy_ksi := 50, table_label := none,
     footing_diameter_in := some 16, footing_embedment_in := some 36 }),
  ("4_0_S80",
   { key := "4_0_S80", label := "4\" Sch80", group := .IC_PIPE,
     od_in := some 4.000, wall_in := some 0.318, height_base_ft := 8, spacing_base_ft := 10,
     fy_ksi := 50, table_label := none,
     footing_diameter_in := some 18, footing_embedment_in := some 42 }),
  ("C_1_7_8_X_1_5_8_X_105",
   { key := "C_1_7_8_X_1_5_8_X_105", label := "1 7/8\" x 1 5/8\" x .105\" C-Shape", group := .II_CSHAPE,
     section_modulus_in3 := none, height_base_ft := 6, spacing_base_ft := 8,
     fy_ksi := 50, table_label := some "1 7/8\" x 1 5/8\" x .105",
     footing_diameter_in := some 10, footing_embedment_in := some 24 }),
  ("C_1_7_8_X_1_5_8_X_121",
   { key := "C_1_7_8_X_1_5_8_X_121", label := "1 7/8\" x 1 5/8\" x .121\" C-Shape", group := .II_CSHAPE,
     section_modulus_in3 := none, height_base_ft := 6, spacing_base_ft := 8,
     fy_ksi := 50, table_label := some "1 7/8\" x 1 5/8\" x .121",
     footing_diameter_in := some 10, footing_embedment_in := some 24 }),
  ("C_2_1_4_X_1_5_8_X_121",
   { key := "C_2_1_4_X_1_5_8_X_121", label := "2 1/4\" x 1 5/8\" x .121\" C-Shape", group := .II_CSHAPE,
     section_modulus_in3 := none, height_base_ft := 6, spacing_base_ft := 8,
     fy_ksi := 50, table_label := some "2 1/4\" x 1 5/8\" x .121",
     footing_diameter_in := some 12, footing_embedment_in := some 30 }),
  ("C_3_1_4_X_2_1_2_X_130",
   { key := "C_3_1_4_X_2_1_2_X_130", label := "3 1/4\" x 2 1/2\" x .130\" C-Shape", group := .II_CSHAPE,
     section_modulus_in3 := none, height_base_ft := 6, spacing_base_ft := 8,
     fy_ksi := 50, table_label := some "3 1/4\" x 2 1/2\" x .130",
     footing_diameter_in := some 14, footing_embedment_in := some 36 })]

/-- Catalog lookup (`POST_TYPES.get` / `key in POST_TYPES`). -/
def lookupPost (key : String) : Option PostTypeM :=
  postTypes.lookup key

/-- `_PIPE_POSTS_BY_SIZE` from `engine.py`: pipe posts ordered by
increasing bending capacity, used by the capacity-based auto-selector. -/
def pipePostsBySize : List String :=
  ["1_7_8_PIPE", "2_3_8_SS40", "2_7_8_SS40", "3_1_2_SS40",
   "4_0_PIPE", "6_5_8_PIPE", "8_5_8_PIPE"]

/-- `CF1_TABLE`: manufacturer Cf1 spacing factors per group and wind
speed (already sorted by wind speed, as in the source). -/
def cf1Table : PostGroup → List (ℚ × ℚ)
  | .IA_REG => [(105, 2.2), (110, 2.0), (120, 1.7), (130, 1.4)]
  | .IA_HIGH => [(105, 3.7), (110, 3.4), (120, 2.8), (130, 2.4)]
  | .IC_PIPE => [(105, 3.1), (110, 2.8), (120, 2.4), (130, 2.0)]
  | .II_CSHAPE => [(105, 3.1), (110, 2.8), (120, 2.4), (130, 2.0)]

/-- `EXPOSURE_CF2`: manufacturer exposure spacing correction. -/
def exposureCf2 : Exposure → ℚ
  | .B => 1.0
  | .C => 0.69
  | .D => 0.57

/-- `DEFAULT_CF3`. -/
def DEFAULT_CF3 : ℚ := 1.0

/-- `get_cf1`: interpolated manufacturer Cf1 factor, clamped below the
lowest and above the highest tabulated wind speed.  The second component
records whether the clamping diagnostic was emitted (the source's
`warnings.warn`, issued only when the speed exceeds the table maximum by
more than 5 mph). -/
def getCf1 (group : PostGroup) (wind_speed_mph : ℚ) : ℚ × Bool :=
  match cf1Table group with
  | [] => (0, false)
  | first :: rest =>
    let lastP := rest.getLastD first
    if wind_speed_mph ≤ first.1 then (first.2, false)
    else if lastP.1 ≤ wind_speed_mph then
      (lastP.2, decide (lastP.1 + 5 < wind_speed_mph))
    else (interpSegments first rest wind_speed_mph, false)

/-- `compute_max_spacing_cf`: `S_table * Cf1 * Cf2 * Cf3` (the catalog
lookup `POST_TYPES[post_key]` is performed by the caller). -/
def computeMaxSpacingCf (post : PostTypeM) (wind_speed_mph : ℚ)
    (exposure : Exposure) (cf3 : ℚ) : ℚ :=
  post.spacing_base_ft * (getCf1 post.group wind_speed_mph).1 * exposureCf2 exposure * cf3

/-- `section_modulus_pipe`: `pi * (D^4 - d^4) / (32 * D)`. -/
def sectionModulusPipe (od_in wall_in : ℚ) : ℚ :=
  mathPi * (od_in ^ 4 - (od_in - 2 * wall_in) ^ 4) / (32 * od_in)

/-- `bending_capacity_lb_in`: `Fy_psi * S / omega` (source default
`omega = 1.67`; all call sites in the source use the default). -/
def bendingCapacity (S_in3 fy_ksi omega : ℚ) : ℚ :=
  fy_ksi * 1000 * S_in3 / omega

/-- The section modulus selected by `compute_moment_check`: a precomputed
`section_modulus_in3` if present, else the pipe formula from `od`/`wall`,
else `none` (no geometry, check skipped). -/
def effectiveSectionModulus (post : PostTypeM) : Option ℚ :=
  match post.section_modulus_in3 with
  | some s => some s
  | none =>
    match post.od_in, post.wall_in with
    | some od, some wall => some (sectionModulusPipe od wall)
    | _, _ => none

/-- `compute_moment_check`: returns `(M_demand_lb_in, M_allow_lb_in, ok)`.
Demand uses the uniform-pressure resultant at H/2; a member without
geometry yields the trivially-ok `(0, 0, true)`. -/
def computeMomentCheck (post : PostTypeM) (height_ft load_per_post_lb : ℚ) :
    ℚ × ℚ × Bool :=
  match effectiveSectionModulus post with
  | none => (0, 0, true)
  | some S =>
    let M_allow := bendingCapacity S post.fy_ksi (167 / 100)
    let lever_arm_in := 1 / 2 * height_ft * 12
    let M_demand := load_per_post_lb * lever_arm_in
    (M_demand, M_allow, decide (M_demand ≤ M_allow))

/-- `moment_of_inertia_pipe`: `pi * (D^4 - d^4) / 64`. -/
def momentOfInertiaPipe (od_in wall_in : ℚ) : ℚ :=
  mathPi * (od_in ^ 4 - (od_in - 2 * wall_in) ^ 4) / 64

/-- `compute_deflection_check`: cantilever tip deflection under the
tributary load versus the `L/60` limit; returns
`(deflection_in, allowable_in, ok)` (source default limit ratio 60). -/
def computeDeflectionCheck (post : PostTypeM) (height_ft load_per_post_lb
    deflection_limit_ratio : ℚ) : ℚ × ℚ × Bool :=
  match post.od_in, post.wall_in with
  | some od, some wall =>
    let I_in4 := momentOfInertiaPipe od wall
    if I_in4 ≤ 0 then (0, 0, true)
    else
      let E_psi : ℚ := 29000000
      let L_in := height_ft * 12
      let delta := load_per_post_lb * L_in ^ 3 / (8 * E_psi * I_in4)
      let allowable := L_in / deflection_limit_ratio
      (roundTo 3 delta, roundTo 3 allowable, decide (delta ≤ allowable))
  | _, _ => (0, 0, true)

/-- `_AVAILABLE_WS`: the repository ships no `data/WLC Tables` directory,
so the table list is empty. -/
def availableWS : List ℤ := []

/-- `compute_max_spacing_from_tables`: with no CSV tables present the
lookup always returns `none` (posts without a `table_label` return `none`
immediately; for the rest, `_AVAILABLE_WS` is empty). -/
def computeMaxSpacingFromTables (post : PostTypeM)
    (_wind_speed_mph _height_ft : ℚ) : Option ℚ :=
  match post.table_label with
  | none => none
  | some _ =>
    match availableWS with
    | [] => none
    | _ :: _ => none

/-! ### asce7.py (real part: Kz) -/

/-- The `alpha` column of `_EXPOSURE_CONSTANTS` (ASCE 7-22 Table 26.11-1). -/
def alphaExp : Exposure → ℝ
  | .B => 7.0
  | .C => 9.5
  | .D => 11.5

/-- The `zg` column of `_EXPOSURE_CONSTANTS`. -/
def zgExp : Exposure → ℝ
  | .B => 1200.0
  | .C => 900.0
  | .D => 700.0

/-- `compute_kz`: `2.01 * (max(height, 15) / zg) ** (2 / alpha)`. -/
noncomputable def computeKz (height_ft : ℝ) (exposure : Exposure) : ℝ :=
  2.01 * (max height_ft 15 / zgExp exposure) ^ ((2 : ℝ) / alphaExp exposure)

/-! ### footing.py -/

/-- `SOIL_CLASSES` lookup with the source's `dict.get(key, default)`
fallback to the conservative default class. -/
def soilClasses (key : String) : String × ℝ :=
  match key with
  | "rock_crystalline" => ("Crystalline bedrock (Class 1)", 1200)
  | "rock_sedimentary" => ("Sedimentary rock (Class 2)", 400)
  | "gravel" => ("Sandy gravel, GW/GP (Class 3)", 200)
  | "sand" => ("Sand, silty sand, SW/SP/SM (Class 4)", 150)
  | "clay" => ("Clay, sandy clay, CL/ML (Class 5)", 100)
  | "default" => ("Default - stiff soil (conservative)", 150)
  | _ => ("Default - stiff soil (conservative)", 150)

/-- `FootingCheckResult` dataclass from `footing.py`. -/
structure FootingCheckResultM where
  overturning_moment_ft_lb : ℝ
  resisting_moment_ft_lb : ℝ
  safety_factor : ℝ
  footing_ok : Prop
  min_embedment_ft : ℝ
  actual_embedment_ft : ℝ
  footing_diameter_in : ℝ
  soil_class : String
  soil_label : String
  lateral_bearing_psf_per_ft : ℝ
  concrete_volume_cf : ℝ

open scoped Classical in
/-- `compute_footing_check` (IBC 1807.3.1 non-constrained pier formula);
source default `required_sf = 1.5` is passed explicitly by the embedding's
call sites. -/
noncomputable def computeFootingCheck (load_per_post_lb height_above_grade_ft
    footing_diameter_in embedment_depth_in : ℝ) (soil_class : String)
    (required_sf : ℝ) : FootingCheckResultM :=
  let sl := soilClasses soil_class
  let d_ft := embedment_depth_in / 12
  let b_ft := footing_diameter_in / 12
  let p_lb := load_per_post_lb
  let h_ft := height_above_grade_ft / 2
  let d_min_ft :=
    if 0 < sl.2 ∧ 0 < b_ft ∧ 0 < p_lb then
      let a_val := 2.34 * p_lb / (sl.2 * b_ft)
      0.5 * a_val * (1 + Real.sqrt (1 + 4.36 * h_ft / a_val))
    else d_ft
  let d_required_ft := d_min_ft * Real.sqrt required_sf
  let sf := if 0 < d_min_ft then (d_ft / d_min_ft) ^ 2 else 999
  let m_ot := p_lb * h_ft
  let m_resist := if 0 < m_ot then m_ot * sf else 0
  let radius_ft := b_ft / 2
  let concrete_cf := (mathPi : ℝ) * radius_ft ^ 2 * d_ft
  { overturning_moment_ft_lb := roundTo 1 m_ot,
    resisting_moment_ft_lb := roundTo 1 m_resist,
    safety_factor := roundTo 2 sf,
    footing_ok := required_sf ≤ sf,
    min_embedment_ft := roundTo 2 d_required_ft,
    actual_embedment_ft := roundTo 2 d_ft,
    footing_diameter_in := footing_diameter_in,
    soil_class := soil_class,
    soil_label := sl.1,
    lateral_bearing_psf_per_ft := sl.2,
    concrete_volume_cf := roundTo 3 concrete_cf }

/-! ### engine.py -/

/-- One tag per distinct engine warning message site (the message strings
themselves carry only formatted numbers, no further logic). -/
inductive WarningTag
  | heightExceedsTables
  | windBeyondTables
  | pressureVeryHigh
  | postLoadExceeds
  | spacingExceedsMax
  | footingSF
  | deflectionExceeds
  | terminalBendingExceeds
deriving DecidableEq

/-- One tag per entry of the fixed 16-item `_assumptions` list. -/
inductive AssumptionTag
  | designWindSpeed
  | velocityPressure
  | kzNote
  | kdNote
  | kztNote
  | gustNote
  | cfNote
  | uniformPressure
  | tributaryLoad
  | bendingDemand
  | allowableBending
  | deflectionNote
  | footingNote
  | pipeSpecNote
  | roleModelNote
  | statusThresholds
deriving DecidableEq

/-- The subset of `EstimateInput` fields read by `_compute_block`. -/
structure EstimateData where
  wind_speed_mph : ℚ
  height_total_ft : ℚ
  post_spacing_ft : ℚ
  exposure : Exposure
  soil_type : Option String := none
  embedment_depth_in : Option ℚ := none
  footing_diameter_in : Option ℚ := none

/-- `_build_warnings` (one tag per conditional message). -/
def buildWarnings (data : EstimateData) (pressure load_per_post : ℚ) :
    List WarningTag :=
  (if 12 < data.height_total_ft then [WarningTag.heightExceedsTables] else []) ++
  (if 150 < data.wind_speed_mph then [WarningTag.windBeyondTables] else []) ++
  (if 60 < pressure then [WarningTag.pressureVeryHigh] else []) ++
  (if 2000 < load_per_post then [WarningTag.postLoadExceeds] else [])

/-- `_assumptions`: a fixed sequence of 16 methodology notes (their text
varies with the input, their presence does not). -/
def assumptionTags (_data : EstimateData) : List AssumptionTag :=
  [.designWindSpeed, .velocityPressure, .kzNote, .kdNote, .kztNote, .gustNote,
   .cfNote, .uniformPressure, .tributaryLoad, .bendingDemand, .allowableBending,
   .deflectionNote, .footingNote, .pipeSpecNote, .roleModelNote, .statusThresholds]

/-- `Recommendation` schema (fields always populated by the engine). -/
structure RecommendationM where
  post_key : String
  post_label : String
  post_size : String
  footing_diameter_in : ℚ
  embedment_in : ℚ
deriving DecidableEq

/-- `Settings.strict_footing` default (`False`; the strict configuration
raises instead of falling back and is not exercised by any claim). -/
def strictFooting : Bool := false

/-- `_build_recommendation` under the default (non-strict) configuration:
unknown keys get the conservative 12 in x 30 in footing and the supplied
label; catalog posts use their footing defaults (all catalog entries carry
footing data, so the missing-data fallback branch coincides with `getD`). -/
def buildRecommendation (post_key : String) (source_label : Option String) :
    RecommendationM :=
  match lookupPost post_key with
  | none =>
    { post_key := post_key,
      post_label := source_label.getD post_key,
      post_size := source_label.getD post_key,
      footing_diameter_in := 12,
      embedment_in := 30 }
  | some post =>
    let label := source_label.getD post.label
    { post_key := post_key,
      post_label := label,
      post_size := label,
      footing_diameter_in := post.footing_diameter_in.getD 12,
      embedment_in := post.footing_embedment_in.getD 30 }

/-- `_build_recommendation_for_post_key`: resolve the label (falling back
to the key itself for unknown keys), then build the recommendation. -/
def buildRecommendationForPostKey (post_key : String) : RecommendationM :=
  let label :=
    match lookupPost post_key with
    | some post => post.label
    | none => post_key
  buildRecommendation post_key (some label)

/-- The adequacy predicate of the auto-selector: the bending check of the
cataloged post under the given key (keys iterated by the selector are all
catalog keys). -/
def momentOkKey (key : String) (height_ft load_per_post_lb : ℚ) : Bool :=
  match lookupPost key with
  | some post => (computeMomentCheck post height_ft load_per_post_lb).2.2
  | none => false

/-- `_recommend_auto_by_capacity`: first pipe (smallest to largest) whose
bending check passes; falls back to the largest pipe when none passes. -/
def recommendAuto (load_per_post_lb height_ft : ℚ) : RecommendationM :=
  match pipePostsBySize.find? (fun k => momentOkKey k height_ft load_per_post_lb) with
  | some k => buildRecommendation k none
  | none => buildRecommendation "8_5_8_PIPE" none

/-- The condition under which `_recommend_auto_by_capacity` emits its
`logger.warning` diagnostic (no pipe adequate, largest recommended). -/
def recommendAutoFellBack (load_per_post_lb height_ft : ℚ) : Bool :=
  (pipePostsBySize.find? (fun k => momentOkKey k height_ft load_per_post_lb)).isNone

/-- `FootingResult` schema (the engine's copy of the footing check). -/
structure FootingResultM where
  overturning_moment_ft_lb : ℝ
  resisting_moment_ft_lb : ℝ
  safety_factor : ℝ
  footing_ok : Prop
  min_embedment_ft : ℝ
  actual_embedment_ft : ℝ
  footing_diameter_in : ℝ
  soil_label : String
  concrete_volume_cf : ℝ

/-- `DeflectionResult` schema. -/
structure DeflectionResultM where
  deflection_in : ℚ
  allowable_in : ℚ
  deflection_ok : Bool
  ratio : ℚ
deriving DecidableEq

/-- The spacing part of the status logic (engine lines 357-364): RED
above 1.0, YELLOW above 0.85, otherwise GREEN. -/
def spacingStatus (spacing_ratio : Option ℚ) : Status :=
  match spacing_ratio with
  | some r => if 1 < r then .RED else if 0.85 < r then .YELLOW else .GREEN
  | none => .GREEN

/-- The full status rule of `_compute_block` (engine lines 356-379): the
spacing status, escalated by terminal bending; the footing and deflection
results are in scope at this point in the source but deliberately do not
participate (footing is advisory per the source comment). -/
def blockStatus (role : Role) (spacing_ratio moment_ratio : Option ℚ)
    (_footing : Option FootingResultM) (_deflection : Option DeflectionResultM) :
    Status :=
  let s1 := spacingStatus spacing_ratio
  match role, moment_ratio with
  | .terminal, some m =>
    if 1 < m then .RED
    else if 0.80 < m ∧ s1 ≠ .RED then .YELLOW
    else s1
  | _, _ => s1

/-- `BlockResult` schema. -/
structure BlockResultM where
  post_key : Option String
  post_label : Option String
  recommended : RecommendationM
  warnings : List WarningTag
  assumptions : List AssumptionTag
  max_spacing_ft : Option ℚ
  M_demand_ft_lb : Option ℚ
  M_allow_ft_lb : Option ℚ
  moment_ok : Option Bool
  spacing_ratio : Option ℚ
  moment_ratio : Option ℚ
  footing : Option FootingResultM
  deflection : Option DeflectionResultM
  status : Status

open scoped Classical in
/-- `_compute_block`: resolve the member (explicit key or capacity-based
auto-selection), then — only for catalog members — compute max spacing
(CSV tables first, Cf1/Cf2 fallback otherwise), the bending, footing and
deflection checks, the utilization ratios and the status.  Non-catalog
keys skip every check and keep all optional fields absent. -/
noncomputable def computeBlock (role : Role) (post_key : Option String)
    (load_per_post_lb : ℚ) (data : EstimateData)
    (pressure_psf _area _total_load_lb : ℚ) : BlockResultM :=
  let warnings0 := buildWarnings data pressure_psf load_per_post_lb
  let rk : RecommendationM × String :=
    match post_key with
    | some k => (buildRecommendationForPostKey k, k)
    | none =>
      let r := recommendAuto load_per_post_lb data.height_total_ft
      (r, r.post_key)
  let recommended := rk.1
  let effective_key := rk.2
  match lookupPost effective_key with
  | none =>
    { post_key := some effective_key,
      post_label := some recommended.post_label,
      recommended := recommended,
      warnings := warnings0,
      assumptions := assumptionTags data,
      max_spacing_ft := none,
      M_demand_ft_lb := none,
      M_allow_ft_lb := none,
      moment_ok := none,
      spacing_ratio := none,
      moment_ratio := none,
      footing := none,
      deflection := none,
      status := blockStatus role none none none none }
  | some post =>
    let table_spacing := computeMaxSpacingFromTables post data.wind_speed_mph data.height_total_ft
    let max_spacing :=
      match table_spacing with
      | some t => roundTo 2 t
      | none =>
        roundTo 2 (computeMaxSpacingCf post data.wind_speed_mph data.exposure DEFAULT_CF3)
    let warnings1 := warnings0 ++
      (if max_spacing < data.post_spacing_ft then [WarningTag.spacingExceedsMax] else [])
    let mc := computeMomentCheck post data.height_total_ft load_per_post_lb
    let embed_in := data.embedment_depth_in.getD recommended.embedment_in
    let footing_dia := data.footing_diameter_in.getD recommended.footing_diameter_in
    let fc := computeFootingCheck (load_per_post_lb : ℝ) (data.height_total_ft : ℝ)
      (footing_dia : ℝ) (embed_in : ℝ) ((data.soil_type).getD "default") (3 / 2)
    let footing_result : Option FootingResultM := some
      { overturning_moment_ft_lb := fc.overturning_moment_ft_lb,
        resisting_moment_ft_lb := fc.resisting_moment_ft_lb,
        safety_factor := fc.safety_factor,
        footing_ok := fc.footing_ok,
        min_embedment_ft := fc.min_embedment_ft,
        actual_embedment_ft := fc.actual_embedment_ft,
        footing_diameter_in := fc.footing_diameter_in,
        soil_label := fc.soil_label,
        concrete_volume_cf := fc.concrete_volume_cf }
    let warnings2 := warnings1 ++
      (if fc.footing_ok then [] else [WarningTag.footingSF])
    let dc := computeDeflectionCheck post data.height_total_ft load_per_post_lb 60
    let defl_ratio := if 0 < dc.2.1 then roundTo 3 (dc.1 / dc.2.1) else 0
    let deflection_result : Option DeflectionResultM := some
      { deflection_in := dc.1, allowable_in := dc.2.1,
        deflection_ok := dc.2.2, ratio := defl_ratio }
    let warnings3 := warnings2 ++
      (if dc.2.2 then [] else [WarningTag.deflectionExceeds])
    let spacing_ratio :=
      if 0 < max_spacing then some (roundTo 3 (data.post_spacing_ft / max_spacing)) else none
    let moment_ratio :=
      if 0 < mc.2.1 then some (roundTo 3 (mc.1 / mc.2.1)) else none
    let warnings4 := warnings3 ++
      (if role = Role.terminal then
        match moment_ratio with
        | some m => if 1 < m then [WarningTag.terminalBendingExceeds] else []
        | none => []
      else [])
    { post_key := some effective_key,
      post_label := some recommended.post_label,
      recommended := recommended,
      warnings := warnings4,
      assumptions := assumptionTags data,
      max_spacing_ft := some max_spacing,
      M_demand_ft_lb := some (roundTo 1 (mc.1 / 12)),
      M_allow_ft_lb := some (roundTo 1 (mc.2.1 / 12)),
      moment_ok := some mc.2.2,
      spacing_ratio := spacing_ratio,
      moment_ratio := moment_ratio,
      footing := footing_result,
      deflection := deflection_result,
      status := blockStatus role spacing_ratio moment_ratio footing_result deflection_result }

/-- `calculate`'s overall-status fold (engine lines 484-488). -/
def overallStatus (line terminal : Status) : Status :=
  if line = .RED ∨ terminal = .RED then .RED
  else if line = .YELLOW ∨ terminal = .YELLOW then .YELLOW
  else .GREEN

/-- `DesignParameters` schema. -/
structure DesignParametersM where
  asce7_edition : String
  kz : ℚ
  kzt : ℚ
  kd : ℚ
  g : ℚ
  cf_solid : ℚ
  cf : ℚ
  solidity : ℚ
  fence_type : String
  qz_psf : ℚ

/-- `SharedResult` schema. -/
structure SharedResultM where
  pressure_psf : ℚ
  area_per_bay_ft2 : ℚ
  total_load_lb : ℚ
  load_per_post_lb : ℚ
  design_params : Option DesignParametersM

/-- `QuantitiesResult` schema. -/
structure QuantitiesResultM where
  fence_length_ft : ℚ
  num_line_posts : ℤ
  num_terminal_posts : ℤ
  num_corner_posts : ℤ
  num_gate_posts : ℤ
  total_posts : ℤ
  top_rail_lf : ℚ
  fabric_sf : ℚ
  total_concrete_cf : ℚ
  total_concrete_cy : ℚ
  line_post_length_ft : ℚ
  terminal_post_length_ft : ℚ

/-- `EstimateOutput` schema: the shared result, both blocks, the overall
status, optional quantities, and the legacy flattened fields. -/
structure EstimateOutputM where
  shared : SharedResultM
  line : BlockResultM
  terminal : BlockResultM
  overall_status : Status
  quantities : Option QuantitiesResultM
  pressure_psf : ℚ
  area_per_bay_ft2 : ℚ
  total_load_lb : ℚ
  load_per_post_lb : ℚ
  recommended : RecommendationM
  warnings : List WarningTag
  assumptions : List AssumptionTag
  max_spacing_ft : Option ℚ
  M_demand_ft_lb : Option ℚ
  M_allow_ft_lb : Option ℚ

/-- The output assembly at the end of `calculate` (engine lines 520-537):
legacy top-level fields are copied from the shared result and the line
block, except `warnings`, which concatenates both blocks' warnings. -/
def assembleEstimateOutput (shared : SharedResultM) (line terminal : BlockResultM)
    (overall_status : Status) (quantities : Option QuantitiesResultM) :
    EstimateOutputM :=
  { shared := shared,
    line := line,
    terminal := terminal,
    overall_status := overall_status,
    quantities := quantities,
    pressure_psf := shared.pressure_psf,
    area_per_bay_ft2 := shared.area_per_bay_ft2,
    total_load_lb := shared.total_load_lb,
    load_per_post_lb := shared.load_per_post_lb,
    recommended := line.recommended,
    warnings := line.warnings ++ terminal.warnings,
    assumptions := line.assumptions,
    max_spacing_ft := line.max_spacing_ft,
    M_demand_ft_lb := line.M_demand_ft_lb,
    M_allow_ft_lb := line.M_allow_ft_lb }

/-! ### risk.py -/

/-- The status component of `classify_risk`: the engine-computed overall
status is used as the primary source (risk.py line 46); the detail strings
built afterwards do not alter it. -/
def classifyRiskStatus (out : EstimateOutputM) : Status :=
  out.overall_status

/-! ### quantities.py -/

/-- `SegmentQuantities` dataclass. -/
structure SegmentQuantitiesM where
  fence_length_ft : ℚ
  height_ft : ℚ
  post_spacing_ft : ℚ
  num_line_posts : ℤ
  num_terminal_posts : ℤ
  num_corner_posts : ℤ
  num_gate_posts : ℤ
  total_posts : ℤ
  top_rail_lf : ℚ
  fabric_sf : ℚ
  concrete_per_line_cf : ℚ
  concrete_per_terminal_cf : ℚ
  total_concrete_cf : ℚ
  total_concrete_cy : ℚ
  line_post_length_ft : ℚ
  terminal_post_length_ft : ℚ
deriving DecidableEq

/-- `_concrete_volume_cf`: cylindrical pier volume `pi * r^2 * depth`. -/
def concreteVolumeCf (diameter_in depth_in : ℚ) : ℚ :=
  mathPi * (diameter_in / 2 / 12) ^ 2 * (depth_in / 12)

/-- `compute_segment_quantities`: bay count (`round`, minimum 1), post
counts, rail/fabric lengths and footing concrete volumes per role. -/
def computeSegmentQuantities (fence_length_ft height_ft post_spacing_ft : ℚ)
    (line_post_key terminal_post_key : Option String)
    (num_terminals num_corners num_gates : ℤ)
    (embedment_override_in footing_diameter_override_in : Option ℚ) :
    SegmentQuantitiesM :=
  let total_bays := max (pyRound (fence_length_ft / post_spacing_ft)) 1
  let special_posts := num_terminals + num_corners + num_gates
  let num_line := max (total_bays - 1) 0
  let total := num_line + special_posts
  let line_post := lookupPost (line_post_key.getD "")
  let term_post := lookupPost (terminal_post_key.getD "")
  let line_footing_dia :=
    footing_diameter_override_in.getD ((line_post.bind (·.footing_diameter_in)).getD 10)
  let line_embed :=
    embedment_override_in.getD ((line_post.bind (·.footing_embedment_in)).getD 24)
  let term_footing_dia :=
    footing_diameter_override_in.getD ((term_post.bind (·.footing_diameter_in)).getD 16)
  let term_embed :=
    embedment_override_in.getD ((term_post.bind (·.footing_embedment_in)).getD 36)
  let concrete_line := concreteVolumeCf line_footing_dia line_embed
  let concrete_term := concreteVolumeCf term_footing_dia term_embed
  let total_concrete := (num_line : ℚ) * concrete_line + (special_posts : ℚ) * concrete_term
  let line_post_len := height_ft + line_embed / 12
  let term_post_len := height_ft + term_embed / 12
  { fence_length_ft := roundTo 1 fence_length_ft,
    height_ft := roundTo 1 height_ft,
    post_spacing_ft := roundTo 1 post_spacing_ft,
    num_line_posts := num_line,
    num_terminal_posts := num_terminals,
    num_corner_posts := num_corners,
    num_gate_posts := num_gates,
    total_posts := total,
    top_rail_lf := roundTo 1 fence_length_ft,
    fabric_sf := roundTo 1 (fence_length_ft * height_ft),
    concrete_per_line_cf := roundTo 3 concrete_line,
    concrete_per_terminal_cf := roundTo 3 concrete_term,
    total_concrete_cf := roundTo 2 total_concrete,
    total_concrete_cy := roundTo 2 (total_concrete / 27),
    line_post_length_ft := roundTo 2 line_post_len,
    terminal_post_length_ft := roundTo 2 term_post_len }

/-! ### Fixtures for concrete witnesses and counterexamples -/

/-- Fixture: a pipe record with the 2-3/8 inch SS40 geometry. -/
def samplePipePost : PostTypeM :=
  { key := "sample", label := "sample", group := .IC_PIPE,
    od_in := some 2.375, wall_in := some 0.130 }

/-- Fixture: a recommendation as produced for the 2-3/8 inch SS40 post. -/
def sampleRecommendation : RecommendationM :=
  { post_key := "2_3_8_SS40", post_label := "2-3/8\" SS40", post_size := "2-3/8\" SS40",
    footing_diameter_in := 10, embedment_in := 24 }

/-- Fixture: a line block with no warnings. -/
def sampleLineBlock : BlockResultM :=
  { post_key := some "2_3_8_SS40", post_label := some "2-3/8\" SS40",
    recommended := sampleRecommendation, warnings := [], assumptions := [],
    max_spacing_ft := none, M_demand_ft_lb := none, M_allow_ft_lb := none,
    moment_ok := none, spacing_ratio := none, moment_ratio := none,
    footing := none, deflection := none, status := .GREEN }

/-- Fixture: a terminal block carrying the over-capacity bending warning
(as `_compute_block` emits when the terminal moment ratio exceeds 1). -/
def sampleTerminalBlock : BlockResultM :=
  { sampleLineBlock with
    warnings := [WarningTag.terminalBendingExceeds], status := .RED }

/-- Fixture: a shared result. -/
def sampleShared : SharedResultM :=
  { pressure_psf := 20, area_per_bay_ft2 := 80, total_load_lb := 1600,
    load_per_post_lb := 800, design_params := none }

/-! ## Helper lemmas -/

theorem rpow_pow_eq {a : ℝ} (ha : 0 ≤ a) (p : ℝ) (n : ℕ) :
    (a ^ p) ^ (n : ℕ) = a ^ (p * n) := by
  rw [← Real.rpow_natCast (a ^ p) n, ← Real.rpow_mul ha]

theorem rpow_lt_rpow_via_pow (a b p q : ℝ) (m k n : ℕ) (ha : 0 ≤ a) (hb : 0 ≤ b)
    (hpm : p * n = m) (hqk : q * n = k) (h : a ^ m < b ^ k) : a ^ p < b ^ q := by
  have h1 : (a ^ p) ^ n < (b ^ q) ^ n := by
    rw [rpow_pow_eq ha, rpow_pow_eq hb, hpm, hqk, Real.rpow_natCast, Real.rpow_natCast]
    exact h
  exact lt_of_pow_lt_pow_left₀ n (Real.rpow_nonneg hb q) h1

theorem buildRecommendation_post_key (k : String) (l : Option String) :
    (buildRecommendation k l).post_key = k := by
  cases h : lookupPost k <;> simp [buildRecommendation, h]

theorem computeCfSolid_some (r : ℚ) :
    computeCfSolid (some r) =
      if r ≤ 2 then 1.2
      else if 45 ≤ r then 1.75
      else interpSegments (2, 1.2) [(5, 1.3), (10, 1.4), (20, 1.5), (45, 1.75)] r := rfl

/-! ## Claims -/

/-- C1: for every block evaluation, the status follows the role-asymmetric
rule: starting from GREEN, spacingRatio > 1.0 gives RED, else
spacingRatio > 0.85 gives YELLOW; for the terminal role momentRatio > 1.0
forces RED and momentRatio > 0.80 forces YELLOW when not already RED; for
the line role the bending ratio never changes the status; footing or
deflection results never change the status for either role. -/
theorem c1_block_status (sr mr : Option ℚ) (fr : Option FootingResultM)
    (dr : Option DeflectionResultM) :
    (blockStatus .line sr mr fr dr = spacingStatus sr) ∧
    (∀ r : ℚ, (1 < r → spacingStatus (some r) = .RED) ∧
      (r ≤ 1 → 0.85 < r → spacingStatus (some r) = .YELLOW) ∧
      (r ≤ 0.85 → spacingStatus (some r) = .GREEN)) ∧
    (spacingStatus none = .GREEN) ∧
    (∀ m : ℚ, 1 < m → blockStatus .terminal sr (some m) fr dr = .RED) ∧
    (∀ m : ℚ, m ≤ 1 → 0.80 < m → spacingStatus sr ≠ .RED →
      blockStatus .terminal sr (some m) fr dr = .YELLOW) ∧
    (∀ m : ℚ, m ≤ 1 → spacingStatus sr = .RED →
      blockStatus .terminal sr (some m) fr dr = .RED) ∧
    (∀ m : ℚ, m ≤ 0.80 → blockStatus .terminal sr (some m) fr dr = spacingStatus sr) ∧
    (blockStatus .terminal sr none fr dr = spacingStatus sr) ∧
    (∀ (role : Role) (fr' : Option FootingResultM) (dr' : Option DeflectionResultM),
      blockStatus role sr mr fr dr = blockStatus role sr mr fr' dr') := by
  refine ⟨?_, ?_, rfl, ?_, ?_, ?_, ?_, rfl, ?_⟩
  · cases mr <;> rfl
  · intro r
    refine ⟨?_, ?_, ?_⟩
    · intro h
      simp [spacingStatus, h]
    · intro h1 h2
      simp [spacingStatus, not_lt.mpr h1, h2]
    · intro h
      simp [spacingStatus, not_lt.mpr h,
        not_lt.mpr (le_trans h (by norm_num : (0.85 : ℚ) ≤ 1))]
  · intro m hm
    simp [blockStatus, hm]
  · intro m hm1 hm2 hred
    simp [blockStatus, not_lt.mpr hm1, hm2, hred]
  · intro m hm1 hsr
    simp [blockStatus, not_lt.mpr hm1, hsr]
  · intro m hm
    simp [blockStatus, not_lt.mpr hm,
      not_lt.mpr (le_trans hm (by norm_num : (0.80 : ℚ) ≤ 1))]
  · intro role fr' dr'
    cases role <;> cases mr <;> rfl

/-- C1 witness: concrete instances of the status rule. -/
theorem c1_block_status_witness :
    blockStatus .line (some 0.9) (some 5) none none = .YELLOW ∧
    blockStatus .terminal (some 0.9) (some 1.5) none none = .RED ∧
    blockStatus .terminal none (some 0.9) none none = .YELLOW ∧
    blockStatus .terminal (some 0.5) (some 0.5) none none = .GREEN := by
  refine ⟨?_, ?_, ?_, ?_⟩
  · exact (c1_block_status (some 0.9) (some 5) none none).1.trans
      (((c1_block_status (some 0.9) (some 5) none none).2.1 0.9).2.1
        (by norm_num) (by norm_num))
  · exact (c1_block_status (some 0.9) none none none).2.2.2.1 1.5 (by norm_num)
  · exact (c1_block_status none none none none).2.2.2.2.1 0.9 (by norm_num) (by norm_num)
      (by intro h; exact absurd ((c1_block_status none none none none).2.2.1 ▸ h) (by simp))
  · exact ((c1_block_status (some 0.5) none none none).2.2.2.2.2.2.1 0.5 (by norm_num)).trans
      (((c1_block_status (some 0.5) none none none).2.1 0.5).2.2 (by norm_num))

/-- C2: the overall status is RED when either block is RED, else YELLOW
when either block is YELLOW, else GREEN; and the risk classifier reports
exactly the engine-computed overall status. -/
theorem c2_overall_status :
    (∀ l t : Status,
      (overallStatus l t = .RED ↔ (l = .RED ∨ t = .RED)) ∧
      (overallStatus l t = .YELLOW ↔ (¬(l = .RED ∨ t = .RED) ∧ (l = .YELLOW ∨ t = .YELLOW))) ∧
      (overallStatus l t = .GREEN ↔ (¬(l = .RED ∨ t = .RED) ∧ ¬(l = .YELLOW ∨ t = .YELLOW)))) ∧
    (∀ (sh : SharedResultM) (lb tb : BlockResultM) (q : Option QuantitiesResultM),
      classifyRiskStatus
        (assembleEstimateOutput sh lb tb (overallStatus lb.status tb.status) q) =
        overallStatus lb.status tb.status) := by
  constructor
  · intro l t
    cases l <;> cases t <;> refine ⟨?_, ?_, ?_⟩ <;> simp [overallStatus]
  · intro sh lb tb q
    rfl

/-- C4: for a member with geometry the bending check computes demand
`M = load * (height/2) * 12` lb-in (hence `M/12 = load * height / 2`
ft-lb exactly), allowable `Fy_psi * S / 1.67`, and ok iff demand does not
exceed allowable; a member with neither OD/wall geometry nor a precomputed
section modulus gets the trivially-ok `(0, 0, true)` result. -/
theorem c4_moment_check (post : PostTypeM) (height load : ℚ) :
    (∀ S, effectiveSectionModulus post = some S →
      (computeMomentCheck post height load).1 = load * (height / 2) * 12 ∧
      (computeMomentCheck post height load).1 / 12 = load * height / 2 ∧
      (computeMomentCheck post height load).2.1 = post.fy_ksi * 1000 * S / (167 / 100) ∧
      ((computeMomentCheck post height load).2.2 = true ↔
        (computeMomentCheck post height load).1 ≤ (computeMomentCheck post height load).2.1)) ∧
    (effectiveSectionModulus post = none → computeMomentCheck post height load = (0, 0, true)) ∧
    (post.section_modulus_in3 = none → (post.od_in = none ∨ post.wall_in = none) →
      effectiveSectionModulus post = none) := by
  refine ⟨?_, ?_, ?_⟩
  · intro S hS
    refine ⟨?_, ?_, ?_, ?_⟩ <;> simp [computeMomentCheck, hS, bendingCapacity]
    · ring
    · ring_nf
  · intro hS
    simp [computeMomentCheck, hS]
  · intro h1 h2
    rcases h2 with h2 | h2
    · simp [effectiveSectionModulus, h1, h2]
    · simp only [effectiveSectionModulus, h1, h2]
      cases post.od_in <;> rfl

/-- C4 witness: the rule evaluated on the 2-3/8 inch SS40 geometry at
height 8 ft and 100 lb per post. -/
theorem c4_moment_check_witness :
    (computeMomentCheck samplePipePost 8 100).1 = 100 * (8 / 2) * 12 ∧
    (computeMomentCheck samplePipePost 8 100).1 / 12 = 100 * 8 / 2 ∧
    (computeMomentCheck samplePipePost 8 100).2.1 =
      samplePipePost.fy_ksi * 1000 * sectionModulusPipe 2.375 0.130 / (167 / 100) := by
  have h := (c4_moment_check samplePipePost 8 100).1 (sectionModulusPipe 2.375 0.130) rfl
  exact ⟨h.1, h.2.1, h.2.2.1⟩

/-- C5: the net force coefficient is the solid-wall coefficient scaled by
the solidity ratio (solidity 1 gives the solid value, solidity 0 gives 0),
where the solid-wall coefficient comes from the 5-point aspect-ratio table
with linear interpolation between adjacent points, clamped below the
lowest ratio and above the highest, and an absent aspect ratio yields the
long-run default 1.5. -/
theorem c5_force_coefficient :
    (computeCfSolid none = 1.5 ∧ CF_SOLID_LONG_FENCE = 1.5) ∧
    (∀ r : ℚ, r ≤ 2 → computeCfSolid (some r) = 1.2) ∧
    (∀ r : ℚ, 45 ≤ r → computeCfSolid (some r) = 1.75) ∧
    (∀ r : ℚ, 2 ≤ r → r ≤ 5 →
      computeCfSolid (some r) = 1.2 + (r - 2) / (5 - 2) * (1.3 - 1.2)) ∧
    (∀ r : ℚ, 5 ≤ r → r ≤ 10 →
      computeCfSolid (some r) = 1.3 + (r - 5) / (10 - 5) * (1.4 - 1.3)) ∧
    (∀ r : ℚ, 10 ≤ r → r ≤ 20 →
      computeCfSolid (some r) = 1.4 + (r - 10) / (20 - 10) * (1.5 - 1.4)) ∧
    (∀ r : ℚ, 20 ≤ r → r ≤ 45 →
      computeCfSolid (some r) = 1.5 + (r - 20) / (45 - 20) * (1.75 - 1.5)) ∧
    (∀ (s : ℚ) (r? : Option ℚ), computeCf s r? = computeCfSolid r? * max s 0) ∧
    (∀ r? : Option ℚ, computeCf 1 r? = computeCfSolid r?) ∧
    (∀ r? : Option ℚ, computeCf 0 r? = 0) := by
  refine ⟨⟨rfl, rfl⟩, ?_, ?_, ?_, ?_, ?_, ?_, ?_, ?_, ?_⟩
  · intro r hr
    rw [computeCfSolid_some, if_pos hr]
  · intro r hr
    rw [computeCfSolid_some, if_neg (by linarith), if_pos hr]
  · intro r hlo hhi
    rcases eq_or_lt_of_le hlo with heq | hlt
    · rw [← heq, computeCfSolid_some, if_pos (by norm_num)]
      norm_num
    · rw [computeCfSolid_some, if_neg (by linarith), if_neg (by linarith)]
      simp only [interpSegments]
      rw [if_pos ⟨by linarith, hhi⟩]
  · intro r hlo hhi
    rcases eq_or_lt_of_le hlo with heq | hlt
    · rw [← heq, computeCfSolid_some, if_neg (by norm_num), if_neg (by norm_num)]
      simp only [interpSegments]
      rw [if_pos ⟨by norm_num, by norm_num⟩]
      norm_num
    · rw [computeCfSolid_some, if_neg (by linarith), if_neg (by linarith)]
      simp only [interpSegments]
      rw [if_neg (by rintro ⟨-, h⟩; linarith), if_pos ⟨by linarith, hhi⟩]
  · intro r hlo hhi
    rcases eq_or_lt_of_le hlo with heq | hlt
    · rw [← heq, computeCfSolid_some, if_neg (by norm_num), if_neg (by norm_num)]
      simp only [interpSegments]
      rw [if_neg (by rintro ⟨-, h⟩; norm_num at h), if_pos ⟨by norm_num, by norm_num⟩]
      norm_num
    · rw [computeCfSolid_some, if_neg (by linarith), if_neg (by linarith)]
      simp only [interpSegments]
      rw [if_neg (by rintro ⟨-, h⟩; linarith), if_neg (by rintro ⟨-, h⟩; linarith),
        if_pos ⟨by linarith, hhi⟩]
  · intro r hlo hhi
    rcases eq_or_lt_of_le hlo with heq | hlt
    · rw [← heq, computeCfSolid_some, if_neg (by norm_num), if_neg (by norm_num)]
      simp only [interpSegments]
      rw [if_neg (by rintro ⟨-, h⟩; norm_num at h), if_neg (by rintro ⟨-, h⟩; norm_num at h),
        if_pos ⟨by norm_num, by norm_num⟩]
      norm_num
    · rcases eq_or_lt_of_le hhi with heq' | hlt'
      · rw [heq', computeCfSolid_some, if_neg (by norm_num), if_pos (by norm_num)]
        norm_num
      · rw [computeCfSolid_some, if_neg (by linarith), if_neg (by linarith)]
        simp only [interpSegments]
        rw [if_neg (by rintro ⟨-, h⟩; linarith), if_neg (by rintro ⟨-, h⟩; linarith),
          if_neg (by rintro ⟨-, h⟩; linarith), if_pos ⟨by linarith, hhi⟩]
  · intro s r?
    rfl
  · intro r?
    simp [computeCf]
  · intro r?
    simp [computeCf]

/-- C5 witness: the interpolation evaluated at aspect ratio 3 and the
solidity endpoints at aspect ratio 3. -/
theorem c5_force_coefficient_witness :
    computeCfSolid (some 3) = 1.2 + (3 - 2) / (5 - 2) * (1.3 - 1.2) ∧
    computeCf 1 (some 3) = computeCfSolid (some 3) ∧
    computeCf 0 (some 3) = 0 := by
  refine ⟨?_, ?_, ?_⟩
  · exact c5_force_coefficient.2.2.2.1 3 (by norm_num) (by norm_num)
  · exact c5_force_coefficient.2.2.2.2.2.2.2.2.1 (some 3)
  · exact c5_force_coefficient.2.2.2.2.2.2.2.2.2 (some 3)

/-- C3 counterexample: the claim's final clause ("auto-selection never
returns a member whose bending check fails when any cataloged member would
pass") is false as stated: at 1,000,000 lb per post and height 8 ft the
selector returns 8-5/8 inch pipe, whose bending check fails, while the
cataloged geometry-less C-shape member passes its (trivially-ok, skipped)
bending check. -/
theorem c3_auto_selection_counterexample :
    (recommendAuto 1000000 8).post_key = "8_5_8_PIPE" ∧
    momentOkKey "8_5_8_PIPE" 8 1000000 = false ∧
    (lookupPost "C_1_7_8_X_1_5_8_X_105").isSome = true ∧
    momentOkKey "C_1_7_8_X_1_5_8_X_105" 8 1000000 = true := by
  have e : ∀ k ∈ pipePostsBySize, momentOkKey k 8 1000000 = false := by
    intro k hk
    fin_cases hk <;>
      · simp [momentOkKey, lookupPost, postTypes, List.lookup, computeMomentCheck,
          effectiveSectionModulus, sectionModulusPipe, bendingCapacity, mathPi]
        norm_num
  refine ⟨?_, e "8_5_8_PIPE" (by simp [pipePostsBySize]), by decide, ?_⟩
  · have : recommendAuto 1000000 8 = buildRecommendation "8_5_8_PIPE" none := by
      simp [recommendAuto, pipePostsBySize, List.find?,
        e "1_7_8_PIPE" (by simp [pipePostsBySize]),
        e "2_3_8_SS40" (by simp [pipePostsBySize]),
        e "2_7_8_SS40" (by simp [pipePostsBySize]),
        e "3_1_2_SS40" (by simp [pipePostsBySize]),
        e "4_0_PIPE" (by simp [pipePostsBySize]),
        e "6_5_8_PIPE" (by simp [pipePostsBySize]),
        e "8_5_8_PIPE" (by simp [pipePostsBySize])]
    rw [this, buildRecommendation_post_key]
  · simp [momentOkKey, lookupPost, postTypes, List.lookup, computeMomentCheck,
      effectiveSectionModulus]

/-- C3 (amended: "any cataloged member" restricted to the ordered pipe
list that auto-selection iterates): the auto-selector always returns a
member of the ordered pipe list; it returns the member found first by the
ascending scan; if any listed pipe passes the bending check the returned
member passes it; and if none passes it returns the largest pipe
(8-5/8 inch) and emits the fallback diagnostic instead of failing. -/
theorem c3_auto_selection (load height : ℚ) :
    ((recommendAuto load height).post_key ∈ pipePostsBySize) ∧
    (∀ k, pipePostsBySize.find? (fun j => momentOkKey j height load) = some k →
      recommendAuto load height = buildRecommendation k none) ∧
    (∀ k ∈ pipePostsBySize, momentOkKey k height load = true →
      momentOkKey (recommendAuto load height).post_key height load = true) ∧
    ((∀ k ∈ pipePostsBySize, momentOkKey k height load = false) →
      recommendAuto load height = buildRecommendation "8_5_8_PIPE" none ∧
      recommendAutoFellBack load height = true) := by
  refine ⟨?_, ?_, ?_, ?_⟩
  · cases heq : pipePostsBySize.find? (fun j => momentOkKey j height load) with
    | none =>
      simp [recommendAuto, heq, buildRecommendation_post_key]
      decide
    | some j =>
      have hmem := List.mem_of_find?_eq_some heq
      simpa [recommendAuto, heq, buildRecommendation_post_key] using hmem
  · intro k heq
    simp [recommendAuto, heq]
  · intro k hk hok
    cases heq : pipePostsBySize.find? (fun j => momentOkKey j height load) with
    | none =>
      exact absurd hok (by simpa using List.find?_eq_none.mp heq k hk)
    | some j =>
      have hj : momentOkKey j height load = true := by
        simpa using List.find?_some heq
      simpa [recommendAuto, heq, buildRecommendation_post_key] using hj
  · intro hall
    have heq : pipePostsBySize.find? (fun j => momentOkKey j height load) = none := by
      apply List.find?_eq_none.mpr
      intro k hk
      simp [hall k hk]
    constructor
    · simp [recommendAuto, heq]
    · simp [recommendAutoFellBack, heq]

/-- C3 witness: at 100 lb per post and height 8 ft the smallest pipe
passes its bending check, so the returned member's check passes. -/
theorem c3_auto_selection_witness :
    momentOkKey "1_7_8_PIPE" 8 100 = true ∧
    momentOkKey (recommendAuto 100 8).post_key 8 100 = true := by
  have hok : momentOkKey "1_7_8_PIPE" 8 100 = true := by
    simp [momentOkKey, lookupPost, postTypes, List.lookup, computeMomentCheck,
      effectiveSectionModulus, sectionModulusPipe, bendingCapacity, mathPi]
    norm_num
  exact ⟨hok,
    (c3_auto_selection 100 8).2.2.1 "1_7_8_PIPE" (by simp [pipePostsBySize]) hok⟩

/-- C6: segment quantities satisfy bay count = round(length/spacing) with
minimum 1, line posts = max(bays - 1, 0), total posts = line + terminals +
corners + gates, total concrete = per-role cylinder volume times count
summed; and the 200 ft x 8 ft x 10 ft scenario yields 19 line posts,
2 terminal posts, 200 lf top rail and 1600 sf fabric. -/
theorem c6_segment_quantities :
    (∀ (L h S : ℚ) (lk tk : Option String) (nt nc ng : ℤ) (eo fo : Option ℚ),
      (computeSegmentQuantities L h S lk tk nt nc ng eo fo).num_line_posts =
        max (max (pyRound (L / S)) 1 - 1) 0 ∧
      (computeSegmentQuantities L h S lk tk nt nc ng eo fo).total_posts =
        max (max (pyRound (L / S)) 1 - 1) 0 + (nt + nc + ng) ∧
      (computeSegmentQuantities L h S lk tk nt nc ng eo fo).num_terminal_posts = nt ∧
      (computeSegmentQuantities L h S lk tk nt nc ng eo fo).top_rail_lf = roundTo 1 L ∧
      (computeSegmentQuantities L h S lk tk nt nc ng eo fo).fabric_sf = roundTo 1 (L * h) ∧
      (computeSegmentQuantities L h S lk tk nt nc ng eo fo).total_concrete_cf =
        roundTo 2 (((max (max (pyRound (L / S)) 1 - 1) 0 : ℤ) : ℚ) *
            concreteVolumeCf
              (fo.getD (((lookupPost (lk.getD "")).bind (·.footing_diameter_in)).getD 10))
              (eo.getD (((lookupPost (lk.getD "")).bind (·.footing_embedment_in)).getD 24)) +
          ((nt + nc + ng : ℤ) : ℚ) *
            concreteVolumeCf
              (fo.getD (((lookupPost (tk.getD "")).bind (·.footing_diameter_in)).getD 16))
              (eo.getD (((lookupPost (tk.getD "")).bind (·.footing_embedment_in)).getD 36)))) ∧
    ((computeSegmentQuantities 200 8 10 none none 2 0 0 none none).num_line_posts = 19 ∧
      (computeSegmentQuantities 200 8 10 none none 2 0 0 none none).num_terminal_posts = 2 ∧
      (computeSegmentQuantities 200 8 10 none none 2 0 0 none none).top_rail_lf = 200 ∧
      (computeSegmentQuantities 200 8 10 none none 2 0 0 none none).fabric_sf = 1600) := by
  constructor
  · intro L h S lk tk nt nc ng eo fo
    exact ⟨rfl, rfl, rfl, rfl, rfl, rfl⟩
  · refine ⟨?_, rfl, ?_, ?_⟩
    · show max (max (pyRound ((200 : ℚ) / 10)) 1 - 1) 0 = 19
      norm_num [pyRound]
    · show roundTo 1 (200 : ℚ) = 200
      norm_num [roundTo, pyRound]
    · show roundTo 1 ((200 : ℚ) * 8) = 1600
      norm_num [roundTo, pyRound]

/-- C9 counterexample: at 132 mph — above the table's 130 mph maximum —
the Cf1 factor is clamped to the highest table value but no diagnostic is
emitted (the source warns only above max + 5 mph), contradicting the
claim that a diagnostic accompanies every above-range speed. -/
theorem c9_cf1_counterexample :
    (130 : ℚ) < 132 ∧ getCf1 .IC_PIPE 132 = (2, false) := by
  constructor
  · norm_num
  · simp [getCf1, cf1Table]
    norm_num

/-- C9 (amended: the diagnostic is emitted only when the wind speed
exceeds the table maximum by more than 5 mph): inside the table's range
the factor is linearly interpolated between adjacent points; at or above
the table maximum it is clamped to the highest table value; the diagnostic
flag is set exactly for speeds above max + 5 mph. -/
theorem c9_cf1_clamp (g : PostGroup) (ws : ℚ) :
    (105 ≤ ws → ws ≤ 110 → (getCf1 g ws).1 =
      (getCf1 g 105).1 + (ws - 105) / (110 - 105) * ((getCf1 g 110).1 - (getCf1 g 105).1)) ∧
    (110 ≤ ws → ws ≤ 120 → (getCf1 g ws).1 =
      (getCf1 g 110).1 + (ws - 110) / (120 - 110) * ((getCf1 g 120).1 - (getCf1 g 110).1)) ∧
    (120 ≤ ws → ws ≤ 130 → (getCf1 g ws).1 =
      (getCf1 g 120).1 + (ws - 120) / (130 - 120) * ((getCf1 g 130).1 - (getCf1 g 120).1)) ∧
    (130 ≤ ws → (getCf1 g ws).1 = (getCf1 g 130).1) ∧
    ((getCf1 g ws).2 = true ↔ 135 < ws) := by
  refine ⟨?_, ?_, ?_, ?_, ?_⟩
  · intro hlo hhi
    rcases eq_or_lt_of_le hlo with heq | hlt
    · rw [← heq]
      cases g <;> norm_num [getCf1, cf1Table, interpSegments]
    · cases g <;>
        · simp only [getCf1, cf1Table, List.getLastD, interpSegments]
          rw [if_neg (by norm_num; linarith), if_neg (by norm_num; linarith),
            if_pos ⟨by norm_num; linarith, by norm_num; linarith⟩]
          norm_num
  · intro hlo hhi
    rcases eq_or_lt_of_le hlo with heq | hlt
    · rw [← heq]
      cases g <;> norm_num [getCf1, cf1Table, interpSegments]
    · cases g <;>
        · simp only [getCf1, cf1Table, List.getLastD, interpSegments]
          rw [if_neg (by norm_num; linarith), if_neg (by norm_num; linarith),
            if_neg (by norm_num; intro _h; linarith),
            if_pos ⟨by norm_num; linarith, by norm_num; linarith⟩]
          norm_num
  · intro hlo hhi
    rcases eq_or_lt_of_le hlo with heq | hlt
    · rw [← heq]
      cases g <;> norm_num [getCf1, cf1Table, interpSegments]
    · rcases eq_or_lt_of_le hhi with heq' | hlt'
      · rw [heq']
        cases g <;> norm_num [getCf1, cf1Table, interpSegments]
      · cases g <;>
          · simp only [getCf1, cf1Table, List.getLastD, interpSegments]
            rw [if_neg (by norm_num; linarith), if_neg (by norm_num; linarith),
              if_neg (by norm_num; intro _h; linarith),
              if_neg (by norm_num; intro _h; linarith),
              if_pos ⟨by norm_num; linarith, by norm_num; linarith⟩]
            norm_num
  · intro h130
    cases g <;>
      · simp only [getCf1, cf1Table, List.getLastD]
        rw [if_neg (by norm_num; linarith), if_pos (by norm_num; linarith),
          if_neg (by norm_num), if_pos (by norm_num)]
  · cases g <;>
      · simp only [getCf1, cf1Table, List.getLastD]
        constructor
        · intro h
          by_cases h1 : ws ≤ 105
          · rw [if_pos (by norm_num; linarith)] at h
            exact absurd h (by norm_num)
          · by_cases h2 : (130 : ℚ) ≤ ws
            · rw [if_neg (by norm_num; linarith), if_pos (by norm_num; linarith)] at h
              have := of_decide_eq_true (by simpa using h)
              linarith
            · rw [if_neg (by norm_num; linarith), if_neg (by norm_num; linarith)] at h
              exact absurd h (by norm_num)
        · intro h
          rw [if_neg (by norm_num; linarith), if_pos (by norm_num; linarith)]
          simpa using decide_eq_true (by norm_num; linarith)

/-- C9 witness: interpolation at 115 mph and clamping with diagnostic at
140 mph for the commercial pipe group. -/
theorem c9_cf1_clamp_witness :
    (getCf1 .IC_PIPE 115).1 = 2.6 ∧
    (getCf1 .IC_PIPE 140).1 = (getCf1 .IC_PIPE 130).1 ∧
    (getCf1 .IC_PIPE 140).2 = true := by
  refine ⟨?_, ?_, ?_⟩
  · have h := (c9_cf1_clamp .IC_PIPE 115).2.1 (by norm_num) (by norm_num)
    rw [h]
    norm_num [getCf1, cf1Table, interpSegments]
  · exact (c9_cf1_clamp .IC_PIPE 140).2.2.2.1 (by norm_num)
  · exact (c9_cf1_clamp .IC_PIPE 140).2.2.2.2.mpr (by norm_num)

/-- C10: an explicit per-role post-key override that is not a catalog key
still yields a complete block result: the recommendation carries the
conservative 12 in x 30 in footing and the override string as its label,
every check is skipped (all optional fields absent), and the status is
GREEN. -/
theorem c10_unknown_override (role : Role) (data : EstimateData)
    (load pressure area total : ℚ) (k : String) (hk : lookupPost k = none)
    (h1 : k ≠ "auto") (h2 : k ≠ "recommended") (h3 : k ≠ "") :
    computeBlock role (some k) load data pressure area total =
      { post_key := some k,
        post_label := some k,
        recommended := { post_key := k, post_label := k, post_size := k,
                         footing_diameter_in := 12, embedment_in := 30 },
        warnings := buildWarnings data pressure load,
        assumptions := assumptionTags data,
        max_spacing_ft := none,
        M_demand_ft_lb := none,
        M_allow_ft_lb := none,
        moment_ok := none,
        spacing_ratio := none,
        moment_ratio := none,
        footing := none,
        deflection := none,
        status := Status.GREEN } := by
  cases role <;>
    simp [computeBlock, hk, blockStatus, spacingStatus,
      buildRecommendationForPostKey, buildRecommendation]

/-- C10 witness: the unknown override "bogus_post" on a concrete input. -/
theorem c10_unknown_override_witness :
    computeBlock .line (some "bogus_post") 100
        { wind_speed_mph := 120, height_total_ft := 8, post_spacing_ft := 10,
          exposure := .C } 20 80 200 =
      { post_key := some "bogus_post",
        post_label := some "bogus_post",
        recommended := { post_key := "bogus_post", post_label := "bogus_post",
                         post_size := "bogus_post",
                         footing_diameter_in := 12, embedment_in := 30 },
        warnings := buildWarnings
          { wind_speed_mph := 120, height_total_ft := 8, post_spacing_ft := 10,
            exposure := .C } 20 100,
        assumptions := assumptionTags
          { wind_speed_mph := 120, height_total_ft := 8, post_spacing_ft := 10,
            exposure := .C },
        max_spacing_ft := none,
        M_demand_ft_lb := none,
        M_allow_ft_lb := none,
        moment_ok := none,
        spacing_ratio := none,
        moment_ratio := none,
        footing := none,
        deflection := none,
        status := Status.GREEN } :=
  c10_unknown_override .line
    { wind_speed_mph := 120, height_total_ft := 8, post_spacing_ft := 10, exposure := .C }
    100 20 80 200 "bogus_post" (by decide) (by decide) (by decide) (by decide)

/-- C7 counterexample: the exposure-severity ordering Kz(h,B) < Kz(h,C)
fails for very large heights — at 3000 ft the B value exceeds the C
value (the claim quantifies over every height). -/
theorem c7_kz_counterexample :
    (15 : ℝ) < 3000 ∧ computeKz 3000 .C < computeKz 3000 .B := by
  refine ⟨by norm_num, ?_⟩
  simp [computeKz, alphaExp, zgExp]
  rw [max_eq_left (by norm_num : (15 : ℝ) ≤ 3000)]
  apply mul_lt_mul_of_pos_left _ (by norm_num : (0 : ℝ) < 2.01)
  apply rpow_lt_rpow_via_pow (3000 / 900.0) (3000 / 1200.0) (2 / 9.5) (2 / 7.0) 28 38 133
    (by norm_num) (by norm_num) (by norm_num) (by norm_num)
  norm_num

/-- C7 (amended: the strict exposure ordering is asserted for heights in
the validated input range, height <= 50 ft; it does fail at extreme
heights): Kz never decreases as the height grows (the height is floored
at 15 ft), and for every height up to 50 ft it is strictly increasing in
exposure severity B < C < D. -/
theorem c7_kz_monotone :
    (∀ (e : Exposure) (h1 h2 : ℝ), h1 < h2 → computeKz h1 e ≤ computeKz h2 e) ∧
    (∀ h : ℝ, h ≤ 50 → computeKz h .B < computeKz h .C ∧ computeKz h .C < computeKz h .D) := by
  constructor
  · intro e h1 h2 hlt
    have hmax : max h1 15 ≤ max h2 15 := max_le_max (le_of_lt hlt) le_rfl
    have hzg : (0 : ℝ) < zgExp e := by cases e <;> norm_num [zgExp]
    have hexp : (0 : ℝ) ≤ 2 / alphaExp e := by cases e <;> norm_num [alphaExp]
    have hbase : (0 : ℝ) ≤ max h1 15 / zgExp e := by positivity
    apply mul_le_mul_of_nonneg_left _ (by norm_num : (0 : ℝ) ≤ 2.01)
    exact Real.rpow_le_rpow hbase (by gcongr) hexp
  · intro h hle
    have h15 : (15 : ℝ) ≤ max h 15 := le_max_right h 15
    have h50 : max h 15 ≤ 50 := max_le hle (by norm_num)
    have hz : (0 : ℝ) < max h 15 := by linarith
    have hz10 : max h 15 ^ 10 ≤ (50 : ℝ) ^ 10 := pow_le_pow_left₀ (by linarith) h50 10
    have hz16 : max h 15 ^ 16 ≤ (50 : ℝ) ^ 16 := pow_le_pow_left₀ (by linarith) h50 16
    constructor
    · simp only [computeKz, alphaExp, zgExp]
      apply mul_lt_mul_of_pos_left _ (by norm_num : (0 : ℝ) < 2.01)
      apply rpow_lt_rpow_via_pow (max h 15 / 1200.0) (max h 15 / 900.0) _ _ 38 28 133
        (by positivity) (by positivity) (by norm_num) (by norm_num)
      rw [div_pow, div_pow, div_lt_div_iff₀ (by positivity) (by positivity)]
      calc max h 15 ^ 38 * 900.0 ^ 28
          = max h 15 ^ 28 * (max h 15 ^ 10 * 900.0 ^ 28) := by ring
        _ ≤ max h 15 ^ 28 * ((50 : ℝ) ^ 10 * 900.0 ^ 28) := by
            apply mul_le_mul_of_nonneg_left _ (by positivity)
            exact mul_le_mul_of_nonneg_right hz10 (by positivity)
        _ < max h 15 ^ 28 * 1200.0 ^ 38 := by
            apply mul_lt_mul_of_pos_left _ (pow_pos hz 28)
            norm_num
    · simp only [computeKz, alphaExp, zgExp]
      apply mul_lt_mul_of_pos_left _ (by norm_num : (0 : ℝ) < 2.01)
      apply rpow_lt_rpow_via_pow (max h 15 / 900.0) (max h 15 / 700.0) _ _ 92 76 437
        (by positivity) (by positivity) (by norm_num) (by norm_num)
      rw [div_pow, div_pow, div_lt_div_iff₀ (by positivity) (by positivity)]
      calc max h 15 ^ 92 * 700.0 ^ 76
          = max h 15 ^ 76 * (max h 15 ^ 16 * 700.0 ^ 76) := by ring
        _ ≤ max h 15 ^ 76 * ((50 : ℝ) ^ 16 * 700.0 ^ 76) := by
            apply mul_le_mul_of_nonneg_left _ (by positivity)
            exact mul_le_mul_of_nonneg_right hz16 (by positivity)
        _ < max h 15 ^ 76 * 900.0 ^ 92 := by
            apply mul_lt_mul_of_pos_left _ (pow_pos hz 76)
            norm_num

/-- C7 witness: monotonicity between 8 ft and 10 ft and the strict
exposure ordering at 8 ft. -/
theorem c7_kz_monotone_witness :
    computeKz 8 .C ≤ computeKz 10 .C ∧
    computeKz 8 .B < computeKz 8 .C ∧ computeKz 8 .C < computeKz 8 .D :=
  ⟨c7_kz_monotone.1 .C 8 10 (by norm_num),
   (c7_kz_monotone.2 8 (by norm_num)).1,
   (c7_kz_monotone.2 8 (by norm_num)).2⟩

/-- C8 (amended: the legacy `warnings` field is not a mirror of the line
block alone — it concatenates the line and terminal block warnings; the
other nine legacy fields mirror the shared result or the line block
exactly): every legacy flattened field of the assembled output is a
derived view of the nested results. -/
theorem c8_legacy_fields (sh : SharedResultM) (lb tb : BlockResultM)
    (ov : Status) (q : Option QuantitiesResultM) :
    (assembleEstimateOutput sh lb tb ov q).pressure_psf = sh.pressure_psf ∧
    (assembleEstimateOutput sh lb tb ov q).area_per_bay_ft2 = sh.area_per_bay_ft2 ∧
    (assembleEstimateOutput sh lb tb ov q).total_load_lb = sh.total_load_lb ∧
    (assembleEstimateOutput sh lb tb ov q).load_per_post_lb = sh.load_per_post_lb ∧
    (assembleEstimateOutput sh lb tb ov q).recommended = lb.recommended ∧
    (assembleEstimateOutput sh lb tb ov q).assumptions = lb.assumptions ∧
    (assembleEstimateOutput sh lb tb ov q).max_spacing_ft = lb.max_spacing_ft ∧
    (assembleEstimateOutput sh lb tb ov q).M_demand_ft_lb = lb.M_demand_ft_lb ∧
    (assembleEstimateOutput sh lb tb ov q).M_allow_ft_lb = lb.M_allow_ft_lb ∧
    (assembleEstimateOutput sh lb tb ov q).warnings = lb.warnings ++ tb.warnings :=
  ⟨rfl, rfl, rfl, rfl, rfl, rfl, rfl, rfl, rfl, rfl⟩

/-- C8 counterexample: when the terminal block carries a warning, the
flattened `warnings` field differs from the line block's warnings, so it
is not a mirror of the line block (it concatenates both blocks). -/
theorem c8_legacy_fields_counterexample :
    (assembleEstimateOutput sampleShared sampleLineBlock sampleTerminalBlock
        (overallStatus sampleLineBlock.status sampleTerminalBlock.status) none).warnings ≠
      sampleLineBlock.warnings ∧
    sampleTerminalBlock.warnings ≠ [] := by
  constructor <;>
    simp [assembleEstimateOutput, sampleLineBlock, sampleTerminalBlock]

end WindCalc
